import Mathlib

/-!
Verification of the Chain-Anchored Access Control Core contracts.

This file shallowly embeds the three ink contracts of the repository
(access_registry, payment_integration, policy_engine) as pure Lean
functions over explicit state records, and proves or refutes the frozen
claims about them.

Conventions of the embedding:
* Machine integers are modelled as Nat with an explicit mod 2^w wherever
  the source performs width-limited arithmetic (u64 addition in
  request_session, u32 counter increments).
* The chain host environment (caller address, block number, block
  timestamp) is passed explicitly as extra arguments to each message.
* The Blake2-256 host primitive is an abstract parameter H from byte
  lists to byte lists: none of the verified properties depend on the
  internals of the hash, only on how the contracts feed bytes into it.
* ink Mapping is modelled as a function into Option, with insert and
  remove as pointwise updates.
* A message returning Result T in the source becomes a Lean function
  returning a pair of a result value and the post state; every error
  path returns the pre state unchanged, exactly as the source returns
  before mutating storage.
-/

/-- A byte, modelled as Nat (values are below 256 in the source). -/
abbrev Byte := Nat

/-- A byte string, such as a 32-byte hash or an encoded key. -/
abbrev Bytes := List Byte

/-- A 20-byte account address, modelled as its byte list. -/
abbrev Addr := List Byte

/-- Pointwise insert into a Mapping modelled as a function into Option. -/
def mapInsert {α β : Type} [DecidableEq α] (m : α → Option β) (k : α) (v : β) :
    α → Option β :=
  fun x => if x = k then some v else m x

/-- Pointwise remove from a Mapping modelled as a function into Option. -/
def mapRemove {α β : Type} [DecidableEq α] (m : α → Option β) (k : α) :
    α → Option β :=
  fun x => if x = k then none else m x

/-- Result type of a contract message: an error or a value. -/
inductive CResult (ε α : Type) where
  | err (e : ε)
  | ok (a : α)
deriving DecidableEq, Repr

/-! ## access_registry: data model -/

/-- Entitlement levels (access_registry). Default is none. -/
inductive EntitlementLevel where
  | none
  | basic
  | premium
  | vip
deriving DecidableEq, Repr

/-- Source helper level_value: numeric value of a level for comparison. -/
def level_value : EntitlementLevel → Nat
  | EntitlementLevel.none => 0
  | EntitlementLevel.basic => 1
  | EntitlementLevel.premium => 2
  | EntitlementLevel.vip => 3

/-- Session grant stored in the session table (access_registry). -/
structure SessionGrant where
  eph_pub_key : Bytes
  scope_id : Bytes
  expires_at_block : Nat
  is_revoked : Bool
  created_at_block : Nat
deriving DecidableEq, Repr

/-- Merkle proof for one attribute (access_registry). -/
structure AttributeProof where
  attribute_hash : Bytes
  proof_path : List Bytes
  proof_indices : List Byte
deriving DecidableEq, Repr

/-- Scope requirement definition (access_registry). -/
structure ScopeRequirement where
  required_attributes : List Bytes
  active : Bool
deriving DecidableEq, Repr

/-- Events emitted by access_registry. -/
inductive AREvent where
  | EntitlementGranted (account : Addr) (level : EntitlementLevel)
  | EntitlementRevoked (account : Addr)
  | SessionCreated (session_id : Bytes) (expires_at_block : Nat)
  | SessionRevoked (session_id : Bytes)
  | SessionRequested (session_id : Bytes) (requester : Addr) (scope_id : Bytes)
      (expires_at_block : Nat)
  | ScopeRequirementSet (scope_id : Bytes)
deriving DecidableEq, Repr

/-- Errors of access_registry. -/
inductive ARError where
  | NotOwner
  | EntitlementNotFound
  | SessionNotFound
  | AttributeStoreNotConfigured
  | RootNotFound
  | InvalidProof
  | MissingRequiredAttribute
  | ScopeNotFound
  | ScopeInactive
deriving DecidableEq, Repr

/-- Storage of the access_registry contract, plus the emitted event log. -/
structure AccessRegistry where
  entitlements : Addr → Option EntitlementLevel
  sessions : Bytes → Option SessionGrant
  owner : Addr
  attribute_store : Option Addr
  scope_requirements : Bytes → Option ScopeRequirement
  events : List AREvent

/-- Constructor of access_registry: owner is the creating caller. -/
def ar_new (caller : Addr) : AccessRegistry :=
  { entitlements := fun _ => Option.none
    sessions := fun _ => Option.none
    owner := caller
    attribute_store := Option.none
    scope_requirements := fun _ => Option.none
    events := [] }

/-! ## access_registry: Merkle proof verifier -/

/-- The loop body of verify_merkle_proof: fold the current hash up the
zipped (sibling, index) path, hashing current on the left when the index
byte is 0 and on the right otherwise. -/
def merkleFold (H : Bytes → Bytes) : Bytes → List (Bytes × Byte) → Bytes
  | current, [] => current
  | current, (sibling, index) :: rest =>
      merkleFold H
        (if index = 0 then H (current ++ sibling) else H (sibling ++ current))
        rest

/-- Source verify_merkle_proof: length mismatch returns false, otherwise
fold the leaf up the path and compare with the root. -/
def verify_merkle_proof (H : Bytes → Bytes) (leaf : Bytes)
    (proof_path : List Bytes) (proof_indices : List Byte) (root : Bytes) :
    Bool :=
  if proof_path.length ≠ proof_indices.length then false
  else merkleFold H leaf (proof_path.zip proof_indices) == root

/-- The folding recurrence exactly as the specification states it: at
level k, current goes left when indices k is 0 and right otherwise,
recursing over the two parallel lists. Written from the spec wording to
compare against the source-derived verify_merkle_proof. -/
def specFold (H : Bytes → Bytes) : Bytes → List Bytes → List Byte → Bytes
  | current, [], _ => current
  | current, _ :: _, [] => current
  | current, sibling :: ss, index :: js =>
      specFold H
        (if index = 0 then H (current ++ sibling) else H (sibling ++ current))
        ss js

/-! ## access_registry: messages -/

/-- Source grant_entitlement: owner-only overwrite of the mapping. -/
def grant_entitlement (caller : Addr) (s : AccessRegistry) (account : Addr)
    (level : EntitlementLevel) : CResult ARError Unit × AccessRegistry :=
  if caller ≠ s.owner then (CResult.err ARError.NotOwner, s)
  else
    (CResult.ok (),
      { s with
        entitlements := mapInsert s.entitlements account level
        events := s.events ++ [AREvent.EntitlementGranted account level] })

/-- Source revoke_entitlement: owner-only removal of the mapping. -/
def revoke_entitlement (caller : Addr) (s : AccessRegistry) (account : Addr) :
    CResult ARError Unit × AccessRegistry :=
  if caller ≠ s.owner then (CResult.err ARError.NotOwner, s)
  else
    (CResult.ok (),
      { s with
        entitlements := mapRemove s.entitlements account
        events := s.events ++ [AREvent.EntitlementRevoked account] })

/-- Source get_entitlement: lookup with unwrap_or_default. -/
def get_entitlement (s : AccessRegistry) (account : Addr) : EntitlementLevel :=
  (s.entitlements account).getD EntitlementLevel.none

/-- Source has_entitlement: compare numeric level values. -/
def has_entitlement (s : AccessRegistry) (account : Addr)
    (required_level : EntitlementLevel) : Bool :=
  level_value required_level ≤ level_value (get_entitlement s account)

/-- Source create_session: owner-only insertion of a fresh grant at the
given session id, with is_revoked false and created_at the current block. -/
def create_session (caller : Addr) (block : Nat) (s : AccessRegistry)
    (session_id : Bytes) (eph_pub_key : Bytes) (scope_id : Bytes)
    (expires_at_block : Nat) : CResult ARError Unit × AccessRegistry :=
  if caller ≠ s.owner then (CResult.err ARError.NotOwner, s)
  else
    let grant : SessionGrant :=
      { eph_pub_key := eph_pub_key
        scope_id := scope_id
        expires_at_block := expires_at_block
        is_revoked := false
        created_at_block := block }
    (CResult.ok (),
      { s with
        sessions := mapInsert s.sessions session_id grant
        events := s.events ++ [AREvent.SessionCreated session_id expires_at_block] })

/-- Source get_session: table lookup. -/
def get_session (s : AccessRegistry) (session_id : Bytes) : Option SessionGrant :=
  s.sessions session_id

/-- Source revoke_session: owner-only; sets is_revoked on the stored
grant, or fails SessionNotFound. -/
def revoke_session (caller : Addr) (s : AccessRegistry) (session_id : Bytes) :
    CResult ARError Unit × AccessRegistry :=
  if caller ≠ s.owner then (CResult.err ARError.NotOwner, s)
  else
    match s.sessions session_id with
    | Option.none => (CResult.err ARError.SessionNotFound, s)
    | Option.some grant =>
        (CResult.ok (),
          { s with
            sessions := mapInsert s.sessions session_id
              { grant with is_revoked := true }
            events := s.events ++ [AREvent.SessionRevoked session_id] })

/-- Source set_attribute_store: owner-only configuration. -/
def set_attribute_store (caller : Addr) (s : AccessRegistry) (address : Addr) :
    CResult ARError Unit × AccessRegistry :=
  if caller ≠ s.owner then (CResult.err ARError.NotOwner, s)
  else (CResult.ok (), { s with attribute_store := some address })

/-- Source set_scope_requirement: owner-only overwrite of the scope table. -/
def set_scope_requirement (caller : Addr) (s : AccessRegistry)
    (scope_id : Bytes) (required_attributes : List Bytes) (active : Bool) :
    CResult ARError Unit × AccessRegistry :=
  if caller ≠ s.owner then (CResult.err ARError.NotOwner, s)
  else
    (CResult.ok (),
      { s with
        scope_requirements := mapInsert s.scope_requirements scope_id
          { required_attributes := required_attributes, active := active }
        events := s.events ++ [AREvent.ScopeRequirementSet scope_id] })

/-- Little-endian byte encoding of the u32 block number, as produced by
to_le_bytes in compute_session_id. -/
def leBytesU32 (n : Nat) : Bytes :=
  [n % 256, n / 256 % 256, n / 2 ^ 16 % 256, n / 2 ^ 24 % 256]

/-- Source compute_session_id: hash of caller bytes, scope id, and the
little-endian u32 block number. -/
def compute_session_id (H : Bytes → Bytes) (caller : Addr) (scope_id : Bytes)
    (block : Nat) : Bytes :=
  H (caller ++ scope_id ++ leBytesU32 block)

/-- The proof-checking loop of request_session: for each required hash in
order, find the first supplied proof with that attribute hash (else
MissingRequiredAttribute) and verify it against the root (else
InvalidProof). -/
def check_required (H : Bytes → Bytes) : List Bytes → List AttributeProof →
    Bytes → CResult ARError Unit
  | [], _, _ => CResult.ok ()
  | required_hash :: rest, proofs, root =>
      match proofs.find? (fun p => p.attribute_hash == required_hash) with
      | Option.none => CResult.err ARError.MissingRequiredAttribute
      | Option.some p =>
          if verify_merkle_proof H p.attribute_hash p.proof_path
              p.proof_indices root
          then check_required H rest proofs root
          else CResult.err ARError.InvalidProof

/-- Source request_session: require the attribute store configured, the
scope present and active, and every required attribute proven; then store
a fresh grant under the computed session id. The u64 addition computing
expires_at_block is modelled with wrapping semantics (mod 2 to the 64). -/
def request_session (H : Bytes → Bytes) (caller : Addr) (block : Nat)
    (s : AccessRegistry) (eph_pub_key : Bytes) (scope_id : Bytes)
    (duration_blocks : Nat) (proofs : List AttributeProof) (root : Bytes) :
    CResult ARError Bytes × AccessRegistry :=
  match s.attribute_store with
  | Option.none => (CResult.err ARError.AttributeStoreNotConfigured, s)
  | Option.some _ =>
      match s.scope_requirements scope_id with
      | Option.none => (CResult.err ARError.ScopeNotFound, s)
      | Option.some requirement =>
          if requirement.active = false then
            (CResult.err ARError.ScopeInactive, s)
          else
            match check_required H requirement.required_attributes proofs root with
            | CResult.err e => (CResult.err e, s)
            | CResult.ok () =>
                let session_id := compute_session_id H caller scope_id block
                let expires_at_block := (block + duration_blocks) % 2 ^ 64
                let grant : SessionGrant :=
                  { eph_pub_key := eph_pub_key
                    scope_id := scope_id
                    expires_at_block := expires_at_block
                    is_revoked := false
                    created_at_block := block }
                (CResult.ok session_id,
                  { s with
                    sessions := mapInsert s.sessions session_id grant
                    events := s.events ++
                      [AREvent.SessionRequested session_id caller scope_id
                        expires_at_block] })

/-! ## access_registry: operation alphabet for invariant claims -/

/-- One mutating invocation of access_registry, with its caller and the
block environment where the invocation needs it. -/
inductive AROp where
  | grantEnt (caller : Addr) (account : Addr) (level : EntitlementLevel)
  | revokeEnt (caller : Addr) (account : Addr)
  | createSess (caller : Addr) (block : Nat) (session_id : Bytes)
      (eph_pub_key : Bytes) (scope_id : Bytes) (expires_at_block : Nat)
  | revokeSess (caller : Addr) (session_id : Bytes)
  | setStore (caller : Addr) (address : Addr)
  | setScope (caller : Addr) (scope_id : Bytes)
      (required_attributes : List Bytes) (active : Bool)
  | requestSess (caller : Addr) (block : Nat) (eph_pub_key : Bytes)
      (scope_id : Bytes) (duration_blocks : Nat)
      (proofs : List AttributeProof) (root : Bytes)

/-- State reached by running one access_registry operation. -/
def applyAROp (H : Bytes → Bytes) (s : AccessRegistry) : AROp → AccessRegistry
  | AROp.grantEnt caller account level =>
      (grant_entitlement caller s account level).2
  | AROp.revokeEnt caller account => (revoke_entitlement caller s account).2
  | AROp.createSess caller block session_id eph scope expires =>
      (create_session caller block s session_id eph scope expires).2
  | AROp.revokeSess caller session_id => (revoke_session caller s session_id).2
  | AROp.setStore caller address => (set_attribute_store caller s address).2
  | AROp.setScope caller scope attrs active =>
      (set_scope_requirement caller s scope attrs active).2
  | AROp.requestSess caller block eph scope duration proofs root =>
      (request_session H caller block s eph scope duration proofs root).2

/-- The operations that can write a fresh grant into the session slot of
the given id: create_session with exactly that id, and request_session by
a caller, scope, and block whose computed session id is that id. -/
def writesSessionSlot (H : Bytes → Bytes) (op : AROp) (sid : Bytes) : Prop :=
  match op with
  | AROp.createSess _ _ session_id _ _ _ => session_id = sid
  | AROp.requestSess caller block _ scope _ _ _ =>
      compute_session_id H caller scope block = sid
  | _ => False

/-! ## payment_integration: data model -/

/-- Maximum byte length of string inputs (payment_integration and
policy_engine). -/
def MAX_STRING_LENGTH : Nat := 256

/-- Payment status (payment_integration). -/
inductive PaymentStatus where
  | Pending
  | Completed
  | Failed
  | Refunded
deriving DecidableEq, Repr

/-- Payment record (payment_integration). -/
structure Payment where
  account : Addr
  provider : String
  transaction_id : String
  amount : Nat
  entitlement_granted : Nat
  status : PaymentStatus
  timestamp : Nat
deriving DecidableEq, Repr

/-- Events emitted by payment_integration. -/
inductive PIEvent where
  | PaymentRecorded (payment_id : Nat) (account : Addr)
      (payment_provider : String) (transaction_id : String) (amount : Nat)
  | PaymentCompleted (payment_id : Nat) (account : Addr)
      (entitlement_granted : Nat)
  | PaymentFailed (payment_id : Nat) (reason : String)
  | PaymentRefunded (payment_id : Nat)
  | ProcessorAuthorized (processor : Addr)
deriving DecidableEq, Repr

/-- Errors of payment_integration. -/
inductive PIError where
  | NotOwner
  | NotAuthorizedProcessor
  | PaymentNotFound
  | PaymentAlreadyExists
  | InvalidStatus
  | InputTooLong
deriving DecidableEq, Repr

/-- Storage of the payment_integration contract, plus the event log. -/
structure PaymentIntegration where
  payments : Nat → Option Payment
  transaction_to_payment : String → Option Nat
  next_payment_id : Nat
  owner : Addr
  access_registry : Option Addr
  authorized_processors : Addr → Option Bool
  events : List PIEvent

/-- Constructor of payment_integration: the creating caller becomes owner
and is inserted as an authorized processor. -/
def pi_new (caller : Addr) : PaymentIntegration :=
  { payments := fun _ => Option.none
    transaction_to_payment := fun _ => Option.none
    next_payment_id := 0
    owner := caller
    access_registry := Option.none
    authorized_processors := mapInsert (fun _ => Option.none) caller true
    events := [] }

/-- Source is_authorized_processor: lookup with unwrap_or false. -/
def is_authorized_processor (s : PaymentIntegration) (account : Addr) : Bool :=
  (s.authorized_processors account).getD false

/-- Source authorize_processor: owner-only insertion into the processor set. -/
def authorize_processor (caller : Addr) (s : PaymentIntegration)
    (processor : Addr) : CResult PIError Unit × PaymentIntegration :=
  if caller ≠ s.owner then (CResult.err PIError.NotOwner, s)
  else
    (CResult.ok (),
      { s with
        authorized_processors := mapInsert s.authorized_processors processor true
        events := s.events ++ [PIEvent.ProcessorAuthorized processor] })

/-- Source record_payment: processor gate, then input length validation,
then the duplicate transaction_id check; on success insert the Pending
payment under next_payment_id, index the transaction id, and increment the
u32 counter (with wrapping semantics). String lengths are byte lengths as
in Rust. -/
def record_payment (caller : Addr) (timestamp : Nat) (s : PaymentIntegration)
    (account : Addr) (provider : String) (transaction_id : String)
    (amount : Nat) (entitlement_granted : Nat) :
    CResult PIError Nat × PaymentIntegration :=
  if is_authorized_processor s caller = false then
    (CResult.err PIError.NotAuthorizedProcessor, s)
  else if MAX_STRING_LENGTH < provider.utf8ByteSize ∨
      MAX_STRING_LENGTH < transaction_id.utf8ByteSize then
    (CResult.err PIError.InputTooLong, s)
  else if (s.transaction_to_payment transaction_id).isSome then
    (CResult.err PIError.PaymentAlreadyExists, s)
  else
    let payment_id := s.next_payment_id
    let payment : Payment :=
      { account := account
        provider := provider
        transaction_id := transaction_id
        amount := amount
        entitlement_granted := entitlement_granted
        status := PaymentStatus.Pending
        timestamp := timestamp }
    (CResult.ok payment_id,
      { s with
        payments := mapInsert s.payments payment_id payment
        transaction_to_payment :=
          mapInsert s.transaction_to_payment transaction_id payment_id
        next_payment_id := (s.next_payment_id + 1) % 2 ^ 32
        events := s.events ++
          [PIEvent.PaymentRecorded payment_id account provider transaction_id
            amount] })

/-- Source complete_payment: processor gate, lookup, require Pending,
then set Completed. -/
def complete_payment (caller : Addr) (s : PaymentIntegration)
    (payment_id : Nat) : CResult PIError Unit × PaymentIntegration :=
  if is_authorized_processor s caller = false then
    (CResult.err PIError.NotAuthorizedProcessor, s)
  else
    match s.payments payment_id with
    | Option.none => (CResult.err PIError.PaymentNotFound, s)
    | Option.some payment =>
        if payment.status ≠ PaymentStatus.Pending then
          (CResult.err PIError.InvalidStatus, s)
        else
          (CResult.ok (),
            { s with
              payments := mapInsert s.payments payment_id
                { payment with status := PaymentStatus.Completed }
              events := s.events ++
                [PIEvent.PaymentCompleted payment_id payment.account
                  payment.entitlement_granted] })

/-- Source fail_payment: processor gate, lookup, then set Failed with no
precondition on the current status. -/
def fail_payment (caller : Addr) (s : PaymentIntegration) (payment_id : Nat)
    (reason : String) : CResult PIError Unit × PaymentIntegration :=
  if is_authorized_processor s caller = false then
    (CResult.err PIError.NotAuthorizedProcessor, s)
  else
    match s.payments payment_id with
    | Option.none => (CResult.err PIError.PaymentNotFound, s)
    | Option.some payment =>
        (CResult.ok (),
          { s with
            payments := mapInsert s.payments payment_id
              { payment with status := PaymentStatus.Failed }
            events := s.events ++ [PIEvent.PaymentFailed payment_id reason] })

/-- Source refund_payment: processor gate, lookup, require Completed,
then set Refunded. -/
def refund_payment (caller : Addr) (s : PaymentIntegration)
    (payment_id : Nat) : CResult PIError Unit × PaymentIntegration :=
  if is_authorized_processor s caller = false then
    (CResult.err PIError.NotAuthorizedProcessor, s)
  else
    match s.payments payment_id with
    | Option.none => (CResult.err PIError.PaymentNotFound, s)
    | Option.some payment =>
        if payment.status ≠ PaymentStatus.Completed then
          (CResult.err PIError.InvalidStatus, s)
        else
          (CResult.ok (),
            { s with
              payments := mapInsert s.payments payment_id
                { payment with status := PaymentStatus.Refunded }
              events := s.events ++ [PIEvent.PaymentRefunded payment_id] })

/-- Source get_payment: table lookup. -/
def get_payment (s : PaymentIntegration) (payment_id : Nat) : Option Payment :=
  s.payments payment_id

/-- One payment-mutating invocation of payment_integration. -/
inductive PIOp where
  | record (caller : Addr) (timestamp : Nat) (account : Addr)
      (provider : String) (transaction_id : String) (amount : Nat)
      (entitlement_granted : Nat)
  | complete (caller : Addr) (payment_id : Nat)
  | fail (caller : Addr) (payment_id : Nat) (reason : String)
  | refund (caller : Addr) (payment_id : Nat)

/-- State reached by running one payment_integration operation. -/
def applyPIOp (s : PaymentIntegration) : PIOp → PaymentIntegration
  | PIOp.record caller ts account provider tx amount ent =>
      (record_payment caller ts s account provider tx amount ent).2
  | PIOp.complete caller payment_id => (complete_payment caller s payment_id).2
  | PIOp.fail caller payment_id reason =>
      (fail_payment caller s payment_id reason).2
  | PIOp.refund caller payment_id => (refund_payment caller s payment_id).2

/-! ## policy_engine: data model and messages -/

/-- Maximum number of required attributes in a policy (policy_engine). -/
def MAX_ATTRIBUTES : Nat := 50

/-- Policy rule (policy_engine). -/
structure PolicyRule where
  resource_id : String
  required_attributes : List (String × String)
  min_entitlement : Nat
  active : Bool
deriving DecidableEq, Repr

/-- Events emitted by policy_engine. -/
inductive PEEvent where
  | PolicyCreated (policy_id : Nat) (resource_id : String)
  | PolicyUpdated (policy_id : Nat)
  | PolicyDeleted (policy_id : Nat)
  | AccessGranted (account : Addr) (policy_id : Nat) (resource_id : String)
  | AccessDenied (account : Addr) (policy_id : Nat) (resource_id : String)
      (reason : String)
deriving DecidableEq, Repr

/-- Errors of policy_engine. -/
inductive PEError where
  | NotOwner
  | PolicyNotFound
  | ContractNotConfigured
  | InputTooLong
  | TooManyAttributes
deriving DecidableEq, Repr

/-- Storage of the policy_engine contract, plus the event log. -/
structure PolicyEngine where
  policies : Nat → Option PolicyRule
  next_policy_id : Nat
  owner : Addr
  access_registry : Option Addr
  attribute_store : Option Addr
  events : List PEEvent

/-- Constructor of policy_engine: owner is the creating caller. -/
def pe_new (caller : Addr) : PolicyEngine :=
  { policies := fun _ => Option.none
    next_policy_id := 0
    owner := caller
    access_registry := Option.none
    attribute_store := Option.none
    events := [] }

/-- The per-attribute length validation loop of create_policy and
update_policy: some key or value exceeds the byte-length bound. -/
def attrsTooLong (required_attributes : List (String × String)) : Bool :=
  required_attributes.any (fun kv =>
    MAX_STRING_LENGTH < kv.1.utf8ByteSize ∨ MAX_STRING_LENGTH < kv.2.utf8ByteSize)

/-- Source create_policy: owner gate, length validations, then insert an
active policy under next_policy_id and increment the u32 counter. -/
def create_policy (caller : Addr) (s : PolicyEngine) (resource_id : String)
    (required_attributes : List (String × String)) (min_entitlement : Nat) :
    CResult PEError Nat × PolicyEngine :=
  if caller ≠ s.owner then (CResult.err PEError.NotOwner, s)
  else if MAX_STRING_LENGTH < resource_id.utf8ByteSize then
    (CResult.err PEError.InputTooLong, s)
  else if MAX_ATTRIBUTES < required_attributes.length then
    (CResult.err PEError.TooManyAttributes, s)
  else if attrsTooLong required_attributes then
    (CResult.err PEError.InputTooLong, s)
  else
    let policy_id := s.next_policy_id
    let policy : PolicyRule :=
      { resource_id := resource_id
        required_attributes := required_attributes
        min_entitlement := min_entitlement
        active := true }
    (CResult.ok policy_id,
      { s with
        policies := mapInsert s.policies policy_id policy
        next_policy_id := (s.next_policy_id + 1) % 2 ^ 32
        events := s.events ++ [PEEvent.PolicyCreated policy_id resource_id] })

/-- Source update_policy: owner gate, length validations, then fetch the
policy (else PolicyNotFound) and overwrite its required_attributes,
min_entitlement, and active fields, keeping resource_id. -/
def update_policy (caller : Addr) (s : PolicyEngine) (policy_id : Nat)
    (required_attributes : List (String × String)) (min_entitlement : Nat)
    (active : Bool) : CResult PEError Unit × PolicyEngine :=
  if caller ≠ s.owner then (CResult.err PEError.NotOwner, s)
  else if MAX_ATTRIBUTES < required_attributes.length then
    (CResult.err PEError.TooManyAttributes, s)
  else if attrsTooLong required_attributes then
    (CResult.err PEError.InputTooLong, s)
  else
    match s.policies policy_id with
    | Option.none => (CResult.err PEError.PolicyNotFound, s)
    | Option.some policy =>
        (CResult.ok (),
          { s with
            policies := mapInsert s.policies policy_id
              { policy with
                required_attributes := required_attributes
                min_entitlement := min_entitlement
                active := active }
            events := s.events ++ [PEEvent.PolicyUpdated policy_id] })

/-- Source delete_policy: owner gate, then unconditional removal and
PolicyDeleted event, succeeding whether or not the id was present. -/
def delete_policy (caller : Addr) (s : PolicyEngine) (policy_id : Nat) :
    CResult PEError Unit × PolicyEngine :=
  if caller ≠ s.owner then (CResult.err PEError.NotOwner, s)
  else
    (CResult.ok (),
      { s with
        policies := mapRemove s.policies policy_id
        events := s.events ++ [PEEvent.PolicyDeleted policy_id] })

/-- Source get_policy: table lookup. -/
def get_policy (s : PolicyEngine) (policy_id : Nat) : Option PolicyRule :=
  s.policies policy_id

/-! ## Concrete instances used by witnesses and counterexamples -/

/-- A concrete stand-in for the host hash when evaluating scenarios whose
truth does not depend on hash values: the constant 1-byte output. -/
def Hc : Bytes → Bytes := fun _ => [0]

/-- Concrete owner address. -/
def oA : Addr := List.replicate 20 1

/-- Concrete user address. -/
def uA : Addr := List.replicate 20 2

/-- Concrete non-owner, non-processor address. -/
def bA : Addr := List.replicate 20 3

/-- Payment scenario: one payment recorded (id 0, Pending, tx txn-123). -/
def piRecorded : PaymentIntegration :=
  (record_payment oA 0 (pi_new oA) uA "apple" "txn-123" 1000 2).2

/-- Payment scenario: that payment completed. -/
def piCompleted : PaymentIntegration := (complete_payment oA piRecorded 0).2

/-- A 257-byte ASCII string, one byte over MAX_STRING_LENGTH. -/
def longStr : String := String.mk (List.replicate 257 'a')

/-- Session scenario: session id [7] created at block 5. -/
def arCreated : AccessRegistry :=
  (create_session oA 5 (ar_new oA) [7] [2] [3] 1000).2

/-- Session scenario: session id [7] then revoked. -/
def arRevoked : AccessRegistry := (revoke_session oA arCreated [7]).2

/-- Session scenario: session id [7] re-created after revocation. -/
def arRecreated : AccessRegistry :=
  (create_session oA 6 arRevoked [7] [2] [3] 2000).2

/-- Registry scenario for request_session: attribute store configured and
scope [4] active with no required attributes. -/
def arScope4 : AccessRegistry :=
  (set_scope_requirement oA (set_attribute_store oA (ar_new oA) [9]).2
    [4] [] true).2

/-- Registry scenario for request_session: attribute store configured and
scope [6] active with no required attributes. -/
def arScope6 : AccessRegistry :=
  (set_scope_requirement oA (set_attribute_store oA (ar_new oA) [9]).2
    [6] [] true).2

/-- Policy scenario: one policy created (id 0, resource res). -/
def peCreated : PolicyEngine :=
  (create_policy oA (pe_new oA) "res" [] 1).2

/-! ## Theorems -/

/-- On equal-length paths the spec recurrence agrees with the zipped fold
performed by the source. -/
theorem specFold_eq_merkleFold (H : Bytes → Bytes) :
    ∀ (path : List Bytes) (idx : List Byte) (current : Bytes),
      path.length = idx.length →
      specFold H current path idx = merkleFold H current (path.zip idx) := by
  intro path
  induction path with
  | nil =>
      intro idx current h
      cases idx with
      | nil => rfl
      | cons i js => simp at h
  | cons s ss ih =>
      intro idx current h
      cases idx with
      | nil => simp at h
      | cons i js =>
          simp only [List.length_cons, Nat.succ.injEq] at h
          simp only [specFold, List.zip_cons_cons, merkleFold]
          exact ih js _ h

/-! ## C1 -/

/-- C1: verify_merkle_proof returns true iff folding the leaf up the path
(per the spec recurrence, left when the index byte is 0, right otherwise)
reaches the root; any length mismatch between path and indices yields
false rather than an error; and the empty proof succeeds iff the leaf
already equals the root. -/
theorem C1_verify_merkle_proof_characterization (H : Bytes → Bytes)
    (leaf root : Bytes) (path : List Bytes) (idx : List Byte) :
    (path.length = idx.length →
      (verify_merkle_proof H leaf path idx root = true ↔
        specFold H leaf path idx = root))
    ∧ (path.length ≠ idx.length →
        verify_merkle_proof H leaf path idx root = false)
    ∧ (verify_merkle_proof H leaf [] [] root = true ↔ leaf = root) := by
  refine ⟨?_, ?_, ?_⟩
  · intro hlen
    unfold verify_merkle_proof
    rw [if_neg (by simp [hlen])]
    rw [specFold_eq_merkleFold H path idx leaf hlen]
    exact beq_iff_eq
  · intro hlen
    unfold verify_merkle_proof
    rw [if_pos hlen]
  · unfold verify_merkle_proof
    simp only [List.length_nil, ne_eq, not_true_eq_false, if_false,
      List.zip_nil_left, merkleFold]
    exact beq_iff_eq

/-- Witness for C1 at concrete inputs: a one-level proof with index 0
verifies against the hash of leaf and sibling, under a concrete hash. -/
theorem C1_verify_merkle_proof_witness :
    verify_merkle_proof (fun b => [b.foldl (fun a c => a + c) 0])
      [1] [[2]] [0] [3] = true :=
  ((C1_verify_merkle_proof_characterization
      (fun b => [b.foldl (fun a c => a + c) 0]) [1] [3] [[2]] [0]).1
    (by decide)).mpr (by decide)

/-! ## C6 -/

/-- C6: has_entitlement compares the numeric value of the stored level
(None for unmapped accounts, via the defaulting read) with the numeric
value of the required level, and in particular requiring level None
succeeds for every account. -/
theorem C6_has_entitlement_characterization (s : AccessRegistry)
    (account : Addr) (required_level : EntitlementLevel) :
    (has_entitlement s account required_level = true ↔
      level_value required_level ≤ level_value (get_entitlement s account))
    ∧ (s.entitlements account = Option.none →
        get_entitlement s account = EntitlementLevel.none)
    ∧ has_entitlement s account EntitlementLevel.none = true := by
  refine ⟨?_, ?_, ?_⟩
  · unfold has_entitlement
    exact decide_eq_true_iff
  · intro h
    unfold get_entitlement
    rw [h]
    rfl
  · unfold has_entitlement level_value
    simp

/-- Witness for C6 on a fresh registry and an unmapped account. -/
theorem C6_has_entitlement_witness :
    get_entitlement (ar_new oA) uA = EntitlementLevel.none :=
  (C6_has_entitlement_characterization (ar_new oA) uA
    EntitlementLevel.none).2.1 rfl

/-! ## C7 -/

/-- C7: when the owner grants level L to an account, get_entitlement
returns L; and granting then revoking leaves get_entitlement at None. -/
theorem C7_grant_revoke_roundtrip (caller : Addr) (s : AccessRegistry)
    (account : Addr) (level : EntitlementLevel) (hown : caller = s.owner) :
    get_entitlement (grant_entitlement caller s account level).2 account =
      level
    ∧ get_entitlement
        (revoke_entitlement caller
          (grant_entitlement caller s account level).2 account).2 account =
      EntitlementLevel.none := by
  have hgrant :
      (grant_entitlement caller s account level).2 =
        { s with
          entitlements := mapInsert s.entitlements account level
          events := s.events ++ [AREvent.EntitlementGranted account level] } := by
    unfold grant_entitlement
    rw [if_neg (by simp [hown])]
  constructor
  · rw [hgrant]
    unfold get_entitlement mapInsert
    simp
  · rw [hgrant]
    unfold revoke_entitlement
    rw [if_neg (by simp [hown])]
    unfold get_entitlement mapRemove
    simp

/-- Witness for C7 at a concrete registry, account, and level. -/
theorem C7_grant_revoke_roundtrip_witness :
    get_entitlement (grant_entitlement oA (ar_new oA) uA
        EntitlementLevel.vip).2 uA = EntitlementLevel.vip
    ∧ get_entitlement
        (revoke_entitlement oA
          (grant_entitlement oA (ar_new oA) uA EntitlementLevel.vip).2 uA).2
        uA = EntitlementLevel.none :=
  C7_grant_revoke_roundtrip oA (ar_new oA) uA EntitlementLevel.vip rfl

/-! ## C8 -/

/-- C8 amended: a successful update_policy keeps the policy resource_id
and replaces required_attributes, min_entitlement, and active; and when
the caller is the owner, the inputs pass validation (at most 50
attributes, each string at most 256 bytes), and no policy with the id
exists, update_policy returns PolicyNotFound with the state unchanged. -/
theorem C8_update_policy_frame_amended (caller : Addr) (s : PolicyEngine)
    (policy_id : Nat) (required_attributes : List (String × String))
    (min_entitlement : Nat) (active : Bool) :
    (∀ (r : Unit) (s' : PolicyEngine),
      update_policy caller s policy_id required_attributes min_entitlement
          active = (CResult.ok r, s') →
      ∃ p p', s.policies policy_id = some p
        ∧ s'.policies policy_id = some p'
        ∧ p'.resource_id = p.resource_id
        ∧ p'.required_attributes = required_attributes
        ∧ p'.min_entitlement = min_entitlement
        ∧ p'.active = active)
    ∧ (caller = s.owner →
        required_attributes.length ≤ MAX_ATTRIBUTES →
        attrsTooLong required_attributes = false →
        s.policies policy_id = Option.none →
        update_policy caller s policy_id required_attributes min_entitlement
            active = (CResult.err PEError.PolicyNotFound, s)) := by
  constructor
  · intro r s' h
    unfold update_policy at h
    split at h
    · simp at h
    · split at h
      · simp at h
      · split at h
        · simp at h
        · split at h
          · simp at h
          · rename_i policy heq
            rw [Prod.mk.injEq] at h
            refine ⟨policy,
              { resource_id := policy.resource_id
                required_attributes := required_attributes
                min_entitlement := min_entitlement
                active := active },
              heq, ?_, rfl, rfl, rfl, rfl⟩
            rw [← h.2]
            simp [mapInsert]
  · intro hown hlen hattrs habs
    unfold update_policy
    rw [if_neg (by simp [hown]), if_neg (Nat.not_lt.mpr hlen),
      if_neg (by simp [hattrs]), habs]

/-- Witness for C8: updating the concrete created policy keeps its
resource id and replaces the other fields, and updating an absent policy
id as the owner fails PolicyNotFound. -/
theorem C8_update_policy_witness :
    (∃ p p', peCreated.policies 0 = some p
      ∧ (update_policy oA peCreated 0 [("k", "v")] 3 false).2.policies 0 =
          some p'
      ∧ p'.resource_id = p.resource_id
      ∧ p'.required_attributes = [("k", "v")]
      ∧ p'.min_entitlement = 3
      ∧ p'.active = false)
    ∧ update_policy oA (pe_new oA) 5 [] 1 true =
        (CResult.err PEError.PolicyNotFound, pe_new oA) :=
  ⟨(C8_update_policy_frame_amended oA peCreated 0 [("k", "v")] 3 false).1
      () _ rfl,
   (C8_update_policy_frame_amended oA (pe_new oA) 5 [] 1 true).2
      rfl (by decide) (by decide) rfl⟩

/-- Counterexample to C8 as stated: with an absent policy id, a non-owner
call returns NotOwner, not PolicyNotFound; the PolicyNotFound clause of
the claim does not hold unconditionally. -/
theorem C8_update_policy_counterexample :
    (pe_new oA).policies 0 = Option.none
    ∧ (update_policy bA (pe_new oA) 0 [] 1 true).1 ≠
        CResult.err PEError.PolicyNotFound := by
  exact ⟨rfl, by decide⟩

/-! ## C9 -/

/-- C9: delete_policy called by the owner on an absent policy id still
succeeds, removes nothing new, and emits PolicyDeleted; and delete_policy
never returns PolicyNotFound for any caller. -/
theorem C9_delete_policy_total (caller : Addr) (s : PolicyEngine)
    (policy_id : Nat) :
    (caller = s.owner → s.policies policy_id = Option.none →
      delete_policy caller s policy_id =
        (CResult.ok (),
          { s with
            policies := mapRemove s.policies policy_id
            events := s.events ++ [PEEvent.PolicyDeleted policy_id] }))
    ∧ ∀ (r : CResult PEError Unit) (s' : PolicyEngine),
        delete_policy caller s policy_id = (r, s') →
        r ≠ CResult.err PEError.PolicyNotFound := by
  constructor
  · intro hown _
    unfold delete_policy
    rw [if_neg (by simp [hown])]
  · intro r s' h
    unfold delete_policy at h
    split at h
    · rw [Prod.mk.injEq] at h
      rw [← h.1]
      decide
    · rw [Prod.mk.injEq] at h
      rw [← h.1]
      decide

/-- Witness for C9: deleting the absent policy id 3 on a fresh engine
returns Ok and emits PolicyDeleted. -/
theorem C9_delete_policy_witness :
    (delete_policy oA (pe_new oA) 3).1 = CResult.ok ()
    ∧ (delete_policy oA (pe_new oA) 3).2.events =
        [PEEvent.PolicyDeleted 3] := by
  rw [(C9_delete_policy_total oA (pe_new oA) 3).1 rfl rfl]
  exact ⟨rfl, rfl⟩

/-! ## C5 -/

/-- C5 amended: when an authorized processor calls record_payment with
provider and transaction_id within the 256-byte bound and the
transaction_id already indexed, the call returns PaymentAlreadyExists and
the whole state is unchanged (so the first payment record and
next_payment_id are untouched). -/
theorem C5_record_payment_duplicate_amended (caller : Addr) (ts : Nat)
    (s : PaymentIntegration) (account : Addr)
    (provider transaction_id : String) (amount ent : Nat)
    (hauth : is_authorized_processor s caller = true)
    (hprov : provider.utf8ByteSize ≤ MAX_STRING_LENGTH)
    (htx : transaction_id.utf8ByteSize ≤ MAX_STRING_LENGTH)
    (hdup : (s.transaction_to_payment transaction_id).isSome = true) :
    record_payment caller ts s account provider transaction_id amount ent =
      (CResult.err PIError.PaymentAlreadyExists, s) := by
  unfold record_payment
  rw [if_neg (by simp [hauth]),
    if_neg (by push_neg; exact ⟨hprov, htx⟩),
    if_pos hdup]

/-- Witness for C5 amended: re-recording txn-123 on the concrete recorded
state fails PaymentAlreadyExists with the state unchanged. -/
theorem C5_record_payment_duplicate_witness :
    record_payment oA 1 piRecorded uA "apple" "txn-123" 500 1 =
      (CResult.err PIError.PaymentAlreadyExists, piRecorded) :=
  C5_record_payment_duplicate_amended oA 1 piRecorded uA "apple" "txn-123"
    500 1 (by decide) (by decide) (by decide) (by decide)

set_option maxRecDepth 4000 in
/-- Counterexample to C5 as stated: an authorized processor re-submits an
indexed transaction id but with a 257-byte provider string; the call
returns InputTooLong, not PaymentAlreadyExists, because the length
validation precedes the duplicate check. -/
theorem C5_record_payment_counterexample :
    is_authorized_processor piRecorded oA = true
    ∧ piRecorded.transaction_to_payment "txn-123" = some 0
    ∧ (record_payment oA 1 piRecorded uA longStr "txn-123" 500 1).1 =
        CResult.err PIError.InputTooLong
    ∧ CResult.err (α := Nat) PIError.InputTooLong ≠
        CResult.err PIError.PaymentAlreadyExists := by
  refine ⟨by decide, by decide, ?_, by decide⟩
  decide

/-! ## C2 -/

/-- record_payment never touches a payment slot other than the one at
next_payment_id. -/
theorem record_payment_payments_ne (caller : Addr) (ts : Nat)
    (s : PaymentIntegration) (account : Addr) (provider tx : String)
    (amount ent : Nat) (pid : Nat) (hne : pid ≠ s.next_payment_id) :
    (record_payment caller ts s account provider tx amount ent).2.payments pid
      = s.payments pid := by
  unfold record_payment
  split
  · rfl
  · split
    · rfl
    · split
      · rfl
      · simp [mapInsert, hne]

/-- complete_payment leaves a stored payment unchanged or moves it from
Pending to Completed. -/
theorem complete_payment_status_cases (caller : Addr)
    (s : PaymentIntegration) (payment_id pid : Nat) (p p' : Payment)
    (hb : s.payments pid = some p) :
    (complete_payment caller s payment_id).2.payments pid = some p' →
    p' = p ∨ (p.status = PaymentStatus.Pending ∧
      p' = { p with status := PaymentStatus.Completed }) := by
  unfold complete_payment
  split
  · intro ha
    exact Or.inl (Option.some.inj (hb.symm.trans ha)).symm
  · split
    · intro ha
      exact Or.inl (Option.some.inj (hb.symm.trans ha)).symm
    · rename_i payment heq
      split
      · intro ha
        exact Or.inl (Option.some.inj (hb.symm.trans ha)).symm
      · rename_i hstat
        intro ha
        by_cases hpd : pid = payment_id
        · subst hpd
          have hpp : payment = p := Option.some.inj (heq.symm.trans hb)
          have hins : (mapInsert s.payments pid
              { payment with status := PaymentStatus.Completed }) pid =
              some { payment with status := PaymentStatus.Completed } := by
            simp [mapInsert]
          have ha' : ({ payment with status := PaymentStatus.Completed } :
              Payment) = p' := Option.some.inj (hins.symm.trans ha)
          refine Or.inr ⟨?_, ?_⟩
          · rw [← hpp]
            exact not_ne_iff.mp hstat
          · rw [← ha', ← hpp]
        · have hins : (mapInsert s.payments payment_id
              { payment with status := PaymentStatus.Completed }) pid =
              s.payments pid := by
            simp [mapInsert, hpd]
          exact Or.inl (Option.some.inj
            (hb.symm.trans (hins.symm.trans ha))).symm

/-- fail_payment leaves a stored payment unchanged or makes its status
Failed, with no precondition on the previous status. -/
theorem fail_payment_status_cases (caller : Addr) (s : PaymentIntegration)
    (payment_id pid : Nat) (reason : String) (p p' : Payment)
    (hb : s.payments pid = some p) :
    (fail_payment caller s payment_id reason).2.payments pid = some p' →
    p' = p ∨ p'.status = PaymentStatus.Failed := by
  unfold fail_payment
  split
  · intro ha
    exact Or.inl (Option.some.inj (hb.symm.trans ha)).symm
  · split
    · intro ha
      exact Or.inl (Option.some.inj (hb.symm.trans ha)).symm
    · rename_i payment heq
      intro ha
      by_cases hpd : pid = payment_id
      · subst hpd
        have hins : (mapInsert s.payments pid
            { payment with status := PaymentStatus.Failed }) pid =
            some { payment with status := PaymentStatus.Failed } := by
          simp [mapInsert]
        have ha' : ({ payment with status := PaymentStatus.Failed } :
            Payment) = p' := Option.some.inj (hins.symm.trans ha)
        exact Or.inr (by rw [← ha'])
      · have hins : (mapInsert s.payments payment_id
            { payment with status := PaymentStatus.Failed }) pid =
            s.payments pid := by
          simp [mapInsert, hpd]
        exact Or.inl (Option.some.inj
          (hb.symm.trans (hins.symm.trans ha))).symm

/-- refund_payment leaves a stored payment unchanged or moves it from
Completed to Refunded. -/
theorem refund_payment_status_cases (caller : Addr) (s : PaymentIntegration)
    (payment_id pid : Nat) (p p' : Payment)
    (hb : s.payments pid = some p) :
    (refund_payment caller s payment_id).2.payments pid = some p' →
    p' = p ∨ (p.status = PaymentStatus.Completed ∧
      p' = { p with status := PaymentStatus.Refunded }) := by
  unfold refund_payment
  split
  · intro ha
    exact Or.inl (Option.some.inj (hb.symm.trans ha)).symm
  · split
    · intro ha
      exact Or.inl (Option.some.inj (hb.symm.trans ha)).symm
    · rename_i payment heq
      split
      · intro ha
        exact Or.inl (Option.some.inj (hb.symm.trans ha)).symm
      · rename_i hstat
        intro ha
        by_cases hpd : pid = payment_id
        · subst hpd
          have hpp : payment = p := Option.some.inj (heq.symm.trans hb)
          have hins : (mapInsert s.payments pid
              { payment with status := PaymentStatus.Refunded }) pid =
              some { payment with status := PaymentStatus.Refunded } := by
            simp [mapInsert]
          have ha' : ({ payment with status := PaymentStatus.Refunded } :
              Payment) = p' := Option.some.inj (hins.symm.trans ha)
          refine Or.inr ⟨?_, ?_⟩
          · rw [← hpp]
            exact not_ne_iff.mp hstat
          · rw [← ha', ← hpp]
        · have hins : (mapInsert s.payments payment_id
              { payment with status := PaymentStatus.Refunded }) pid =
              s.payments pid := by
            simp [mapInsert, hpd]
          exact Or.inl (Option.some.inj
            (hb.symm.trans (hins.symm.trans ha))).symm

/-- C2 amended: in any state whose next_payment_id slot is unoccupied (as
in every reachable state before the u32 payment counter wraps), one
contract operation changes a stored payment status only along
Pending to Completed (complete_payment), Completed to Refunded
(refund_payment), or any status to Failed (fail_payment, which enforces
no status precondition); no other edge is possible. -/
theorem C2_payment_status_transitions_amended (s : PaymentIntegration)
    (op : PIOp) (pid : Nat) (p p' : Payment)
    (hfresh : s.payments s.next_payment_id = Option.none)
    (hb : s.payments pid = some p)
    (ha : (applyPIOp s op).payments pid = some p') :
    p'.status = p.status
    ∨ (p.status = PaymentStatus.Pending ∧
        p'.status = PaymentStatus.Completed)
    ∨ (p.status = PaymentStatus.Completed ∧
        p'.status = PaymentStatus.Refunded)
    ∨ p'.status = PaymentStatus.Failed := by
  have hne : pid ≠ s.next_payment_id := by
    intro h
    rw [h, hfresh] at hb
    cases hb
  cases op with
  | record caller ts account provider tx amount ent =>
      rw [show applyPIOp s (PIOp.record caller ts account provider tx amount
          ent) = (record_payment caller ts s account provider tx amount
          ent).2 from rfl,
        record_payment_payments_ne caller ts s account provider tx amount ent
          pid hne] at ha
      exact Or.inl (congrArg Payment.status
        (Option.some.inj (hb.symm.trans ha)).symm)
  | complete caller payment_id =>
      rcases complete_payment_status_cases caller s payment_id pid p p' hb
          ha with h | ⟨h1, h2⟩
      · exact Or.inl (congrArg Payment.status h)
      · exact Or.inr (Or.inl ⟨h1, by rw [h2]⟩)
  | fail caller payment_id reason =>
      rcases fail_payment_status_cases caller s payment_id pid reason p p' hb
          ha with h | h
      · exact Or.inl (congrArg Payment.status h)
      · exact Or.inr (Or.inr (Or.inr h))
  | refund caller payment_id =>
      rcases refund_payment_status_cases caller s payment_id pid p p' hb
          ha with h | ⟨h1, h2⟩
      · exact Or.inl (congrArg Payment.status h)
      · exact Or.inr (Or.inr (Or.inl ⟨h1, by rw [h2]⟩))

/-- Witness for C2 amended at a concrete state: completing the recorded
Pending payment takes one of the allowed edges. -/
theorem C2_payment_status_transitions_witness :
    ({ account := uA, provider := "apple", transaction_id := "txn-123",
       amount := 1000, entitlement_granted := 2,
       status := PaymentStatus.Completed, timestamp := 0 : Payment}).status =
      ({ account := uA, provider := "apple", transaction_id := "txn-123",
         amount := 1000, entitlement_granted := 2,
         status := PaymentStatus.Pending, timestamp := 0 : Payment}).status
    ∨ (({ account := uA, provider := "apple", transaction_id := "txn-123",
          amount := 1000, entitlement_granted := 2,
          status := PaymentStatus.Pending, timestamp := 0 : Payment}).status =
        PaymentStatus.Pending
      ∧ ({ account := uA, provider := "apple", transaction_id := "txn-123",
           amount := 1000, entitlement_granted := 2,
           status := PaymentStatus.Completed, timestamp := 0 :
           Payment}).status = PaymentStatus.Completed)
    ∨ (({ account := uA, provider := "apple", transaction_id := "txn-123",
          amount := 1000, entitlement_granted := 2,
          status := PaymentStatus.Pending, timestamp := 0 : Payment}).status =
        PaymentStatus.Completed
      ∧ ({ account := uA, provider := "apple", transaction_id := "txn-123",
           amount := 1000, entitlement_granted := 2,
           status := PaymentStatus.Completed, timestamp := 0 :
           Payment}).status = PaymentStatus.Refunded)
    ∨ ({ account := uA, provider := "apple", transaction_id := "txn-123",
         amount := 1000, entitlement_granted := 2,
         status := PaymentStatus.Completed, timestamp := 0 :
         Payment}).status = PaymentStatus.Failed :=
  C2_payment_status_transitions_amended piRecorded (PIOp.complete oA 0) 0
    _ _ (by decide) (by decide) (by decide)

/-- Counterexample to C2 as stated: fail_payment succeeds on a Completed
payment, taking the Completed to Failed edge the claim forbids. -/
theorem C2_status_transition_counterexample :
    (get_payment piCompleted 0).map Payment.status =
      some PaymentStatus.Completed
    ∧ (fail_payment oA piCompleted 0 "probe").1 = CResult.ok ()
    ∧ ((fail_payment oA piCompleted 0 "probe").2.payments 0).map
        Payment.status = some PaymentStatus.Failed := by
  refine ⟨by decide, by decide, by decide⟩

/-! ## C4 -/

/-- grant_entitlement never touches the session table. -/
theorem grant_entitlement_sessions (caller : Addr) (s : AccessRegistry)
    (account : Addr) (level : EntitlementLevel) :
    (grant_entitlement caller s account level).2.sessions = s.sessions := by
  unfold grant_entitlement
  split <;> rfl

/-- revoke_entitlement never touches the session table. -/
theorem revoke_entitlement_sessions (caller : Addr) (s : AccessRegistry)
    (account : Addr) :
    (revoke_entitlement caller s account).2.sessions = s.sessions := by
  unfold revoke_entitlement
  split <;> rfl

/-- set_attribute_store never touches the session table. -/
theorem set_attribute_store_sessions (caller : Addr) (s : AccessRegistry)
    (address : Addr) :
    (set_attribute_store caller s address).2.sessions = s.sessions := by
  unfold set_attribute_store
  split <;> rfl

/-- set_scope_requirement never touches the session table. -/
theorem set_scope_requirement_sessions (caller : Addr) (s : AccessRegistry)
    (scope_id : Bytes) (attrs : List Bytes) (active : Bool) :
    (set_scope_requirement caller s scope_id attrs active).2.sessions =
      s.sessions := by
  unfold set_scope_requirement
  split <;> rfl

/-- create_session leaves every session slot other than its target
unchanged. -/
theorem create_session_sessions_ne (caller : Addr) (block : Nat)
    (s : AccessRegistry) (session_id eph scope : Bytes) (expires : Nat)
    (sid : Bytes) (hne : session_id ≠ sid) :
    (create_session caller block s session_id eph scope expires).2.sessions
      sid = s.sessions sid := by
  unfold create_session
  split
  · rfl
  · simp [mapInsert, hne.symm]

/-- request_session leaves every session slot other than the computed
session id unchanged. -/
theorem request_session_sessions_ne (H : Bytes → Bytes) (caller : Addr)
    (block : Nat) (s : AccessRegistry) (eph scope : Bytes) (duration : Nat)
    (proofs : List AttributeProof) (root : Bytes) (sid : Bytes)
    (hne : compute_session_id H caller scope block ≠ sid) :
    (request_session H caller block s eph scope duration proofs
      root).2.sessions sid = s.sessions sid := by
  unfold request_session
  split
  · rfl
  · split
    · rfl
    · split
      · rfl
      · split
        · rfl
        · simp [mapInsert, hne.symm]

/-- revoke_session preserves the revoked status of every revoked session:
it either leaves the slot alone or writes a grant with is_revoked true. -/
theorem revoke_session_preserves_revoked (caller : Addr)
    (s : AccessRegistry) (session_id sid : Bytes) (g : SessionGrant)
    (hb : s.sessions sid = some g) (hrev : g.is_revoked = true) :
    ∃ g', (revoke_session caller s session_id).2.sessions sid = some g'
      ∧ g'.is_revoked = true := by
  unfold revoke_session
  split
  · exact ⟨g, hb, hrev⟩
  · split
    · exact ⟨g, hb, hrev⟩
    · rename_i grant heq
      by_cases hsd : sid = session_id
      · subst hsd
        exact ⟨{ grant with is_revoked := true }, by simp [mapInsert], rfl⟩
      · exact ⟨g, by simp only [mapInsert]; rw [if_neg hsd]; exact hb, hrev⟩

/-- C4 amended: once a stored session grant has is_revoked true, every
subsequent operation other than create_session targeting that same
session id, or request_session by a caller, scope, and block whose
computed session id is that id (both of which overwrite the slot with a
fresh unrevoked grant), leaves get_session returning a grant with
is_revoked true. -/
theorem C4_revoked_stays_revoked_amended (H : Bytes → Bytes)
    (s : AccessRegistry) (op : AROp) (sid : Bytes) (g : SessionGrant)
    (hb : get_session s sid = some g) (hrev : g.is_revoked = true)
    (hw : ¬ writesSessionSlot H op sid) :
    ∃ g', get_session (applyAROp H s op) sid = some g'
      ∧ g'.is_revoked = true := by
  cases op with
  | grantEnt caller account level =>
      refine ⟨g, ?_, hrev⟩
      show (grant_entitlement caller s account level).2.sessions sid = some g
      rw [grant_entitlement_sessions]
      exact hb
  | revokeEnt caller account =>
      refine ⟨g, ?_, hrev⟩
      show (revoke_entitlement caller s account).2.sessions sid = some g
      rw [revoke_entitlement_sessions]
      exact hb
  | createSess caller block session_id eph scope expires =>
      refine ⟨g, ?_, hrev⟩
      show (create_session caller block s session_id eph scope
        expires).2.sessions sid = some g
      rw [create_session_sessions_ne caller block s session_id eph scope
        expires sid hw]
      exact hb
  | revokeSess caller session_id =>
      exact revoke_session_preserves_revoked caller s session_id sid g hb hrev
  | setStore caller address =>
      refine ⟨g, ?_, hrev⟩
      show (set_attribute_store caller s address).2.sessions sid = some g
      rw [set_attribute_store_sessions]
      exact hb
  | setScope caller scope attrs active =>
      refine ⟨g, ?_, hrev⟩
      show (set_scope_requirement caller s scope attrs active).2.sessions
        sid = some g
      rw [set_scope_requirement_sessions]
      exact hb
  | requestSess caller block eph scope duration proofs root =>
      refine ⟨g, ?_, hrev⟩
      show (request_session H caller block s eph scope duration proofs
        root).2.sessions sid = some g
      rw [request_session_sessions_ne H caller block s eph scope duration
        proofs root sid hw]
      exact hb

/-- Witness for C4 amended: after revoking session [7], an unrelated
grant_entitlement operation leaves the session revoked. -/
theorem C4_revoked_stays_revoked_witness :
    ∃ g', get_session
        (applyAROp Hc arRevoked (AROp.grantEnt oA uA EntitlementLevel.basic))
        [7] = some g'
      ∧ g'.is_revoked = true :=
  C4_revoked_stays_revoked_amended Hc arRevoked
    (AROp.grantEnt oA uA EntitlementLevel.basic) [7]
    { eph_pub_key := [2], scope_id := [3], expires_at_block := 1000,
      is_revoked := true, created_at_block := 5 }
    (by decide) rfl (fun h => h)

/-- Counterexample to C4 as stated: session [7] is revoked, then the
owner calls create_session with the same id, and get_session afterwards
returns a grant with is_revoked false. -/
theorem C4_revoked_counterexample :
    (get_session arRevoked [7]).map SessionGrant.is_revoked = some true
    ∧ (get_session arRecreated [7]).map SessionGrant.is_revoked =
        some false := by
  exact ⟨by decide, by decide⟩

/-! ## C3 -/

/-- The proof-checking loop succeeds exactly when every required
attribute hash has a first matching proof in the supplied list and that
proof verifies against the root. -/
theorem check_required_ok_iff (H : Bytes → Bytes) (reqs : List Bytes)
    (proofs : List AttributeProof) (root : Bytes) :
    check_required H reqs proofs root = CResult.ok () ↔
    ∀ h ∈ reqs, ∃ p,
      proofs.find? (fun q => q.attribute_hash == h) = some p
      ∧ verify_merkle_proof H p.attribute_hash p.proof_path p.proof_indices
          root = true := by
  induction reqs with
  | nil => simp [check_required]
  | cons r rest ih =>
      constructor
      · intro hok
        unfold check_required at hok
        split at hok
        · simp at hok
        · rename_i p hfind
          split at hok
          · rename_i hv
            intro h hm
            rcases List.mem_cons.mp hm with rfl | hm'
            · exact ⟨p, hfind, hv⟩
            · exact (ih.mp hok) h hm'
          · simp at hok
      · intro hall
        obtain ⟨p, hfind, hv⟩ := hall r (List.mem_cons_self r rest)
        unfold check_required
        rw [hfind]
        simp only [hv, if_true]
        exact ih.mpr fun h hm => hall h (List.mem_cons_of_mem r hm)

/-- C3 amended: whenever the attribute store is configured, the scope
exists and is active, and every required attribute of the scope has a
proof that verifies against the supplied root, request_session succeeds,
returns the session id computed from caller, scope, and little-endian
u32 block number, and stores a grant with created_at_block the current
block, is_revoked false, and expires_at_block equal to the wrapping u64
sum of the current block and duration_blocks. -/
theorem C3_request_session_success_amended (H : Bytes → Bytes)
    (caller : Addr) (block : Nat) (s : AccessRegistry) (eph scope : Bytes)
    (duration : Nat) (proofs : List AttributeProof) (root : Bytes)
    (astore : Addr) (req : ScopeRequirement)
    (hstore : s.attribute_store = some astore)
    (hscope : s.scope_requirements scope = some req)
    (hact : req.active = true)
    (hproofs : ∀ h ∈ req.required_attributes, ∃ p,
      proofs.find? (fun q => q.attribute_hash == h) = some p
      ∧ verify_merkle_proof H p.attribute_hash p.proof_path p.proof_indices
          root = true) :
    (request_session H caller block s eph scope duration proofs root).1 =
      CResult.ok (compute_session_id H caller scope block)
    ∧ ∃ g, (request_session H caller block s eph scope duration proofs
        root).2.sessions (compute_session_id H caller scope block) = some g
      ∧ g.eph_pub_key = eph
      ∧ g.scope_id = scope
      ∧ g.expires_at_block = (block + duration) % 2 ^ 64
      ∧ g.created_at_block = block
      ∧ g.is_revoked = false := by
  have hck : check_required H req.required_attributes proofs root =
      CResult.ok () :=
    (check_required_ok_iff H req.required_attributes proofs root).mpr hproofs
  unfold request_session
  rw [hstore, hscope]
  dsimp only
  rw [if_neg (by simp [hact]), hck]
  dsimp only
  refine ⟨rfl,
    ⟨{ eph_pub_key := eph, scope_id := scope,
       expires_at_block := (block + duration) % 2 ^ 64,
       is_revoked := false, created_at_block := block },
     by simp [mapInsert], rfl, rfl, rfl, rfl, rfl⟩⟩

/-- Witness for C3 amended: a concrete request on scope [4] with no
required attributes succeeds and stores the expected grant. -/
theorem C3_request_session_witness :
    (request_session Hc uA 1 arScope4 [2] [4] 100 [] [5]).1 =
      CResult.ok (compute_session_id Hc uA [4] 1)
    ∧ ∃ g, (request_session Hc uA 1 arScope4 [2] [4] 100 [] [5]).2.sessions
        (compute_session_id Hc uA [4] 1) = some g
      ∧ g.eph_pub_key = [2]
      ∧ g.scope_id = [4]
      ∧ g.expires_at_block = (1 + 100) % 2 ^ 64
      ∧ g.created_at_block = 1
      ∧ g.is_revoked = false :=
  C3_request_session_success_amended Hc uA 1 arScope4 [2] [4] 100 [] [5]
    [9] { required_attributes := [], active := true }
    (by decide) (by decide) rfl (by simp)

/-- Counterexample to C3 as stated: a successful request with
duration_blocks equal to 2 to the 64 minus 1 at block 1 stores
expires_at_block 0, not created_at_block plus duration_blocks, because
the u64 addition wraps. -/
theorem C3_request_session_counterexample :
    (request_session Hc uA 1 arScope4 [2] [4] (2 ^ 64 - 1) [] [5]).1 =
      CResult.ok [0]
    ∧ ((request_session Hc uA 1 arScope4 [2] [4] (2 ^ 64 - 1) []
        [5]).2.sessions [0]).map SessionGrant.expires_at_block = some 0
    ∧ ((request_session Hc uA 1 arScope4 [2] [4] (2 ^ 64 - 1) []
        [5]).2.sessions [0]).map SessionGrant.created_at_block = some 1
    ∧ (0 : Nat) ≠ 1 + (2 ^ 64 - 1) := by
  refine ⟨by decide, by decide, by decide, by decide⟩

/-! ## C10 -/

/-- C10: every successful request_session stores a grant whose
expires_at_block is the wrapping u64 sum of the current block and
duration_blocks, with no precondition on duration_blocks; concretely, at
block 2 with duration 2 to the 64 minus 1 the stored expires_at_block is
1, which is below created_at_block 2, a session expired at creation. -/
theorem C10_expires_at_block_wraps :
    (∀ (H : Bytes → Bytes) (caller : Addr) (block : Nat)
        (s : AccessRegistry) (eph scope : Bytes) (duration : Nat)
        (proofs : List AttributeProof) (root sid : Bytes)
        (s' : AccessRegistry),
      request_session H caller block s eph scope duration proofs root =
        (CResult.ok sid, s') →
      ∃ g, s'.sessions sid = some g
        ∧ g.created_at_block = block
        ∧ g.expires_at_block = (block + duration) % 2 ^ 64)
    ∧ (request_session Hc uA 2 arScope6 [2] [6] (2 ^ 64 - 1) [] [5]).1 =
        CResult.ok [0]
    ∧ ((request_session Hc uA 2 arScope6 [2] [6] (2 ^ 64 - 1) []
        [5]).2.sessions [0]).map SessionGrant.expires_at_block = some 1
    ∧ ((request_session Hc uA 2 arScope6 [2] [6] (2 ^ 64 - 1) []
        [5]).2.sessions [0]).map SessionGrant.created_at_block = some 2
    ∧ (1 : Nat) < 2 := by
  refine ⟨?_, by decide, by decide, by decide, by decide⟩
  intro H caller block s eph scope duration proofs root sid s' h
  unfold request_session at h
  split at h
  · simp at h
  · split at h
    · simp at h
    · split at h
      · simp at h
      · split at h
        · simp at h
        · simp only [Prod.mk.injEq, CResult.ok.injEq] at h
          obtain ⟨h1, h2⟩ := h
          subst h1
          rw [← h2]
          exact ⟨{ eph_pub_key := eph, scope_id := scope,
                   expires_at_block := (block + duration) % 2 ^ 64,
                   is_revoked := false, created_at_block := block },
                 by simp [mapInsert], rfl, rfl⟩

/-- Witness for C10: the universal part applied to a concrete successful
request with duration 3 at block 2. -/
theorem C10_expires_at_block_wraps_witness :
    ∃ g, (request_session Hc uA 2 arScope6 [2] [6] 3 [] [5]).2.sessions [0] =
        some g
      ∧ g.created_at_block = 2
      ∧ g.expires_at_block = (2 + 3) % 2 ^ 64 :=
  C10_expires_at_block_wraps.1 Hc uA 2 arScope6 [2] [6] 3 [] [5] [0] _ rfl
